import Mathlib

/-!
Shallow embedding of the session-management core of `duplicati_client.py`
(the `login`, `logout`, `verify_token`, `check_response`, `validate_config`,
`load_config` and `write_config` functions), together with the hashing and
encoding primitives the login handshake relies on (`hashlib.sha256`,
`base64.b64encode`/`b64decode`, `urllib.parse.unquote`).

Bytes are modelled as `Nat` values (meaningful when `< 256`), byte strings as
`List Nat`, Python `str` values as Lean `String`/`List Char`, and
`datetime.datetime` instants as `Int` (seconds on an absolute timeline; the
only operations the source performs on datetimes are "now + 600 seconds",
timezone re-tagging, and comparison).  Python dictionaries holding the
persisted configuration are modelled as structures whose fields are `Option`s:
`none` models an absent key.
-/

set_option maxRecDepth 4096

namespace DuplicatiClient

/-! ### Bytes and 32-bit words -/

/-- Truncate to a 32-bit word (the implicit wrap-around of `hashlib`'s
32-bit arithmetic). -/
def w32 (x : Nat) : Nat := x % 4294967296

/-- Right rotation of a 32-bit word by `n` (0 < n < 32). -/
def rotr (n x : Nat) : Nat := w32 ((x >>> n) ||| (x <<< (32 - n)))

/-- Bitwise complement on 32-bit words. -/
def bnot32 (x : Nat) : Nat := 4294967295 ^^^ x

/-! ### SHA-256 (`hashlib.sha256`), over byte lists -/

/-- SHA-256 round constants (FIPS 180-4, in decimal). -/
def shaK : List Nat :=
  [1116352408, 1899447441, 3049323471, 3921009573, 961987163,
   1508970993, 2453635748, 2870763221, 3624381080, 310598401,
   607225278, 1426881987, 1925078388, 2162078206, 2614888103,
   3248222580, 3835390401, 4022224774, 264347078, 604807628,
   770255983, 1249150122, 1555081692, 1996064986, 2554220882,
   2821834349, 2952996808, 3210313671, 3336571891, 3584528711,
   113926993, 338241895, 666307205, 773529912, 1294757372,
   1396182291, 1695183700, 1986661051, 2177026350, 2456956037,
   2730485921, 2820302411, 3259730800, 3345764771, 3516065817,
   3600352804, 4094571909, 275423344, 430227734, 506948616,
   659060556, 883997877, 958139571, 1322822218, 1537002063,
   1747873779, 1955562222, 2024104815, 2227730452, 2361852424,
   2428436474, 2756734187, 3204031479, 3329325298]

/-- SHA-256 initial hash state (in decimal). -/
def shaH0 : List Nat :=
  [1779033703, 3144134277, 1013904242,
   2773480762, 1359893119, 2600822924,
   528734635, 1541459225]

def shaCh (x y z : Nat) : Nat := (x &&& y) ^^^ (bnot32 x &&& z)

def shaMaj (x y z : Nat) : Nat := (x &&& y) ^^^ (x &&& z) ^^^ (y &&& z)

def shaBigSigma0 (x : Nat) : Nat := rotr 2 x ^^^ rotr 13 x ^^^ rotr 22 x

def shaBigSigma1 (x : Nat) : Nat := rotr 6 x ^^^ rotr 11 x ^^^ rotr 25 x

def shaSmallSigma0 (x : Nat) : Nat := rotr 7 x ^^^ rotr 18 x ^^^ (x >>> 3)

def shaSmallSigma1 (x : Nat) : Nat := rotr 17 x ^^^ rotr 19 x ^^^ (x >>> 10)

/-- Big-endian bytes of a value, `k` bytes wide. -/
def beBytes (k n : Nat) : List Nat :=
  match k with
  | 0 => []
  | k + 1 => beBytes k (n / 256) ++ [n % 256]

/-- Group bytes into 32-bit big-endian words. -/
def toWords : List Nat → List Nat
  | b0 :: b1 :: b2 :: b3 :: rest =>
      (((b0 * 256 + b1) * 256 + b2) * 256 + b3) :: toWords rest
  | _ => []

/-- SHA-256 padding: append `0x80`, zero bytes up to 56 mod 64, then the
bit length as a 64-bit big-endian value. -/
def shaPad (msg : List Nat) : List Nat :=
  let len := msg.length
  let padlen := (119 - len % 64) % 64
  msg ++ [0x80] ++ List.replicate padlen 0 ++ beBytes 8 (8 * len)

/-- Message-schedule expansion from 16 to 64 words. -/
def shaSchedule (ws : List Nat) : Array Nat :=
  (List.range 48).foldl
    (fun a i =>
      a.push (w32 (shaSmallSigma1 (a.getD (i + 14) 0) + a.getD (i + 9) 0 +
                   shaSmallSigma0 (a.getD (i + 1) 0) + a.getD i 0)))
    ws.toArray

/-- One SHA-256 compression step over the 8-word working state. -/
def shaRound (w : Array Nat) (st : List Nat) (i : Nat) : List Nat :=
  match st with
  | [a, b, c, d, e, f, g, h] =>
    let t1 := w32 (h + shaBigSigma1 e + shaCh e f g + shaK.getD i 0 + w.getD i 0)
    let t2 := w32 (shaBigSigma0 a + shaMaj a b c)
    [w32 (t1 + t2), a, b, c, w32 (d + t1), e, f, g]
  | st => st

/-- Compress one 64-byte block into the hash state. -/
def shaCompress (h : List Nat) (block : List Nat) : List Nat :=
  let w := shaSchedule (toWords block)
  let st := (List.range 64).foldl (shaRound w) h
  (h.zip st).map (fun p => w32 (p.1 + p.2))

/-- Split a byte list into consecutive 64-byte chunks. -/
def chunks64 (l : List Nat) : List (List Nat) :=
  (List.range ((l.length + 63) / 64)).map (fun i => (l.drop (64 * i)).take 64)

/-- `hashlib.sha256(msg).digest()`: the 32-byte SHA-256 digest. -/
def sha256 (msg : List Nat) : List Nat :=
  ((chunks64 (shaPad msg)).foldl shaCompress shaH0).foldr
    (fun wd acc => beBytes 4 wd ++ acc) []

/-! ### Base64 (`base64.b64encode` / `base64.b64decode`) -/

/-- The base64 alphabet. -/
def b64alphabet : List Char :=
  "ABCDEFGHIJKLMNOPQRSTUVWXYZabcdefghijklmnopqrstuvwxyz0123456789+/".toList

/-- Value of a base64 alphabet character; `none` for characters outside the
alphabet (which `base64.b64decode` discards before decoding). -/
def b64val (c : Char) : Option Nat :=
  let i := b64alphabet.indexOf c
  if i < 64 then some i else none

/-- Decode groups of four 6-bit values into bytes (a trailing group of two or
three values yields one or two bytes, matching base64 padding). -/
def b64decodeGroups : List Nat → List Nat
  | a :: b :: c :: d :: rest =>
      (a * 4 + b / 16) :: (b % 16 * 16 + c / 4) :: (c % 4 * 64 + d) ::
        b64decodeGroups rest
  | [a, b, c] => [a * 4 + b / 16, b % 16 * 16 + c / 4]
  | [a, b] => [a * 4 + b / 16]
  | _ => []

/-- `base64.b64decode` on well-formed input: non-alphabet characters
(including `=` padding) are discarded, then 6-bit groups are decoded. -/
def b64decode (s : String) : List Nat :=
  b64decodeGroups (s.toList.filterMap b64val)

/-- Character for a 6-bit value. -/
def b64char (n : Nat) : Char := b64alphabet.getD n 'A'

/-- Encode bytes in groups of three, padding the final group with `=`. -/
def b64encodeGroups : List Nat → List Char
  | a :: b :: c :: rest =>
      b64char (a / 4) :: b64char (a % 4 * 16 + b / 16) ::
        b64char (b % 16 * 4 + c / 64) :: b64char (c % 64) ::
        b64encodeGroups rest
  | [a, b] => [b64char (a / 4), b64char (a % 4 * 16 + b / 16),
               b64char (b % 16 * 4), '=']
  | [a] => [b64char (a / 4), b64char (a % 4 * 16), '=', '=']
  | [] => []

/-- `base64.b64encode(..).decode('utf-8')`: bytes to base64 text. -/
def b64encode (l : List Nat) : String := String.mk (b64encodeGroups l)

/-! ### Character-list splitting (Python `str.split(sep)` for a one-character
separator) -/

/-- `str.split(sep)` on character lists; always returns at least one part,
and exactly (number of separators + 1) parts. -/
def splitOnChar (sep : Char) : List Char → List (List Char)
  | [] => [[]]
  | c :: cs =>
    if c = sep then [] :: splitOnChar sep cs
    else
      match splitOnChar sep cs with
      | [] => [[c]]
      | p :: ps => (c :: p) :: ps

/-! ### Percent-decoding (`urllib.parse.unquote`)

Modelled for single-byte escape sequences, following the library's algorithm:
split on `%`, then decode the first two characters of each later chunk as a
hex byte, leaving the chunk untouched (with its `%` restored) when they are
not two hex digits.  (Joint decoding of multi-byte UTF-8 escape sequences is
outside the scope of the claims.) -/

/-- Hex digit value, `none` for non-hex characters. -/
def hexVal (c : Char) : Option Nat :=
  if '0' ≤ c ∧ c ≤ '9' then some (c.toNat - '0'.toNat)
  else if 'a' ≤ c ∧ c ≤ 'f' then some (c.toNat - 'a'.toNat + 10)
  else if 'A' ≤ c ∧ c ≤ 'F' then some (c.toNat - 'A'.toNat + 10)
  else none

/-- Decode one chunk that followed a `%` sign. -/
def unquoteChunk (chunk : List Char) : List Char :=
  match chunk with
  | a :: b :: rest =>
    match hexVal a, hexVal b with
    | some x, some y => Char.ofNat (x * 16 + y) :: rest
    | _, _ => '%' :: chunk
  | _ => '%' :: chunk

/-- `urllib.parse.unquote` (single-byte escape sequences). -/
def unquote (s : String) : String :=
  match splitOnChar '%' s.toList with
  | [] => s
  | first :: parts => String.mk (first ++ (parts.map unquoteChunk).flatten)

/-! ### UTF-8 encoding (`str.encode()`) -/

/-- UTF-8 bytes of one character. -/
def utf8Bytes (c : Char) : List Nat :=
  let n := c.toNat
  if n < 0x80 then [n]
  else if n < 0x800 then [0xC0 + n / 64, 0x80 + n % 64]
  else if n < 0x10000 then
    [0xE0 + n / 4096, 0x80 + n / 64 % 64, 0x80 + n % 64]
  else
    [0xF0 + n / 262144, 0x80 + n / 4096 % 64, 0x80 + n / 64 % 64, 0x80 + n % 64]

/-- `password.encode()`: UTF-8 bytes of a Python string. -/
def strBytes (s : String) : List Nat := (s.toList.map utf8Bytes).flatten

/-! ### The login digest (lines 812–818 of `login`) -/

/-- The digest computed and transmitted by `login`'s challenge path, mirroring
the source line by line:

    salt_password = password.encode() + base64.b64decode(salt)
    saltedpwd = hashlib.sha256(salt_password).digest()
    nonce_password = base64.b64decode(data["nonce"]) + saltedpwd
    noncedpwd = hashlib.sha256(nonce_password).digest()
    payload = {"password": base64.b64encode(noncedpwd).decode('utf-8')}

`password` is given as its encoded bytes; `salt` and `nonce` are the
base64-encoded strings received from the server. -/
def login_hash (password : List Nat) (salt nonce : String) : String :=
  let salt_password := password ++ b64decode salt
  let saltedpwd := sha256 salt_password
  let nonce_password := b64decode nonce ++ saltedpwd
  let noncedpwd := sha256 nonce_password
  b64encode noncedpwd

/-- The digest formula as the specification words it:
`base64encode(SHA256(base64decode(nonce) || SHA256(passwordBytes || base64decode(salt))))`. -/
def spec_digest (password : List Nat) (salt nonce : String) : String :=
  b64encode (sha256 (b64decode nonce ++ sha256 (password ++ b64decode salt)))

/-! ### The persisted configuration (the global `data` dictionary)

Each field is an `Option`; `none` models an absent dictionary key.  Keys whose
values can be `None` in Python (set explicitly to null, e.g. by `logout`) are
doubly optional: the outer layer is key presence, the inner layer the value. -/

/-- The nested `data["server"]` dictionary. -/
structure ServerMap where
  protocol : Option String
  url : Option String
  port : Option String
deriving DecidableEq, Repr

/-- The configuration dictionary persisted to `config.yml`.  `session_auth`
models the `"session-auth"` key. -/
structure ConfigData where
  server : Option ServerMap
  token : Option (Option String)
  token_expires : Option (Option Int)
  last_login : Option (Option Int)
  nonce : Option String
  session_auth : Option String
  parameters_file : Option (Option String)
  verbose : Option Bool
deriving DecidableEq, Repr

/-- The module-level default `data` dictionary (lines 26–37). -/
def defaultData : ConfigData :=
  { server := some { protocol := some "http", url := some "localhost",
                     port := some "8200" }
    token := some none
    token_expires := some none
    last_login := some none
    nonce := none
    session_auth := none
    parameters_file := some none
    verbose := some false }

/-! ### `check_response` (lines 1173–1190)

Outcome of a call that may `sys.exit`, mutate the in-memory configuration,
write it to disk, and log messages.  `writes` lists the successive arguments
of `write_config`, and `logs` the messages passed to `log_output` with
`important=True`. -/

structure CRResult where
  outcome : Option Nat
  data : ConfigData
  writes : List ConfigData
  logs : List String
deriving DecidableEq, Repr

/-- `check_response(data, status_code)`; `now` is `datetime.datetime.now()`. -/
def check_response (data : ConfigData) (status_code : Nat) (now : Int) :
    CRResult :=
  if status_code = 400 then
    { outcome := some 2, data := data, writes := [],
      logs := ["Session expired. Please login again"] }
  else if status_code = 503 then
    { outcome := some 2, data := data, writes := [],
      logs := ["Server is not responding. Is it running?"] }
  else if status_code = 200 then
    let d := { data with token_expires := some (some (now + 600)) }
    { outcome := none, data := d, writes := [d], logs := [] }
  else
    { outcome := none, data := data, writes := [], logs := [] }

/-! ### `verify_token` (lines 1150–1170)

The function reads `data.get("token")` and `data.get("token_expires")`
(`None` either when the key is absent or when its value is null — `Option.join`
in the model), re-tags both `now` and `expires` as UTC and converts both to
the local timezone (adding the same local-timezone offset `tz_offset` to
each), and exits when `now > expires`.  It performs no network call and no
write; the result records this with empty `writes` and `requests` lists. -/

structure VerifyResult where
  outcome : Option Nat
  writes : List ConfigData
  requests : List String
deriving DecidableEq, Repr

def verify_token (data : ConfigData) (now : Int) (tz_offset : Int) :
    VerifyResult :=
  match data.token.join, data.token_expires.join with
  | none, _ => { outcome := some 2, writes := [], requests := [] }
  | some _, none => { outcome := some 2, writes := [], requests := [] }
  | some _, some expires =>
    let now2 := now + tz_offset
    let expires2 := expires + tz_offset
    if expires2 < now2 then { outcome := some 2, writes := [], requests := [] }
    else { outcome := none, writes := [], requests := [] }

/-! ### `validate_config`, `write_config`, `load_config` (lines 895–946)

The configuration file is modelled as `Option ConfigData`: the parsed YAML
document when the file exists, `none` when it does not.  YAML serialization
itself is an external library, assumed faithful (spec §1). -/

/-- `validate_config(data)`: checks that the required keys are present
(exits with code 2 when not — here reported as `false`). -/
def validate_config (data : ConfigData) : Bool :=
  data.server.isSome &&
    (match data.server with
     | some m => m.protocol.isSome && m.url.isSome && m.port.isSome
     | none => false) &&
    data.token.isSome && data.token_expires.isSome

/-- `write_config(data)`: replaces the file contents with the YAML dump of
`data`. -/
def write_config (data : ConfigData) (_file : Option ConfigData) :
    Option ConfigData := some data

/-- `load_config(data, overwrite)`: creates the file from `data` when it is
missing or `overwrite` is set, then parses and validates it.  Returns the
resulting file state and either the loaded configuration or the exit code. -/
def load_config (data : ConfigData) (overwrite : Bool)
    (file : Option ConfigData) : Option ConfigData × Except Nat ConfigData :=
  let file := if file.isNone || overwrite then write_config data file else file
  match file with
  | some d => if validate_config d then (file, .ok d) else (file, .error 2)
  | none => (file, .error 2)

/-! ### `login` (lines 749–845)

The function is embedded in three pieces mirroring its source layout:

* `login_resolve_url`: lines 750–784, the URL-override parsing, the port
  digit-stripping, the fallback to the persisted server configuration, and
  the in-memory update of `data["server"]`;
* `login_after_resolve`: lines 786–836, the probe and the two handshake
  paths;
* `login_finish`: lines 838–845, the final token/expiry update and
  `write_config` call.

Failure modes of the resolution phase: `invalidURL` is the `sys.exit(2)` on
a colon count above two; `nameError` is the `UnboundLocalError` raised at
line 771 (`port = ''.join(re.findall(r'\d+', port))`) when `input_url` is
`None` and the local variables `protocol`, `url`, `port` were never assigned;
`keyError` is the `KeyError` raised when `data["server"]` (or a required
sub-key) is absent during fallback reads or the update. -/

inductive ResolveErr where
  | invalidURL : ResolveErr
  | nameError : ResolveErr
  | keyError : ResolveErr
deriving DecidableEq, Repr

/-- Lines 770–784, the block that runs after the `if input_url is not None`
parsing (in Python it executes on both paths): the port digit-stripping, the
fallback to the persisted server configuration for missing fields, and the
in-memory update of `data["server"]`.  The local variables `protocol`, `url`,
`port` are `Option (List Char)` with `none` meaning "never assigned"; when
they are unassigned, line 771 (`port = ''.join(re.findall(r'\d+', port))`)
raises the name error.  The `is None` disjuncts of lines 774–779 are vacuous
when the locals are assigned. -/
def login_apply_locals (data : ConfigData)
    (protocolL urlL portL : Option (List Char)) : Except ResolveErr ConfigData :=
  match protocolL, urlL, portL with
  | some protocol0, some url0, some port0 =>
    -- line 771: port = ''.join(re.findall(r'\d+', port))
    let port1 := port0.filter Char.isDigit
    -- lines 773–775: protocol fallback (case-insensitive whitelist)
    let protoRes : Option String :=
      if protocol0.map Char.toLower = "http".toList ∨
         protocol0.map Char.toLower = "https".toList
      then some (String.mk protocol0)
      else data.server.bind (fun m => m.protocol)
    match protoRes with
    | none => .error .keyError
    | some protocol =>
      -- lines 776–777: url fallback
      let urlRes : Option String :=
        if url0 = [] then data.server.bind (fun m => m.url)
        else some (String.mk url0)
      match urlRes with
      | none => .error .keyError
      | some url =>
        -- lines 778–779: port fallback
        let portRes : Option String :=
          if port1 = [] then data.server.bind (fun m => m.port)
          else some (String.mk port1)
        match portRes with
        | none => .error .keyError
        | some port =>
          -- lines 781–784: data["server"][...] = ...
          match data.server with
          | none => .error .keyError
          | some _ =>
            .ok { data with
                    server := some { protocol := some protocol,
                                     url := some url, port := some port } }
  | _, _, _ => .error .nameError

/-- Lines 750–784.  `str.split(":")` yields exactly (colon count + 1) parts,
so matching on the part count selects the same branch as matching on
`input_url.count(":")`; in the one-colon case `input_url.index(":")` equals
the length of the first part. -/
def login_resolve_url (data : ConfigData) (input_url : Option String) :
    Except ResolveErr ConfigData :=
  match input_url with
  | none =>
    -- the locals are never assigned; line 771 raises the name error
    login_apply_locals data none none none
  | some raw =>
    -- line 753: input_url.replace("/", "").replace("_", "")
    match splitOnChar ':' (raw.toList.filter (fun c => !(c = '/' || c = '_'))) with
    | [u] => login_apply_locals data (some []) (some u) (some [])
    | [a, b] =>
      if a.length < 6 then login_apply_locals data (some a) (some b) (some [])
      else login_apply_locals data (some []) (some a) (some b)
    | [p, u, pt] => login_apply_locals data (some p) (some u) (some pt)
    | _ => .error .invalidURL

/-- How the `login` invocation ends: a normal `return`, a `sys.exit(code)`,
or an uncaught exception. -/
inductive PyOutcome where
  | ok : PyOutcome
  | exited : Nat → PyOutcome
  | nameError : PyOutcome
  | keyError : PyOutcome
deriving DecidableEq, Repr

structure LoginResult where
  outcome : PyOutcome
  data : ConfigData
  writes : List ConfigData
  requests : List String
  logs : List String
deriving DecidableEq, Repr

/-- The server's responses and the clock, as `login` observes them: the probe
`GET`, the nonce request, and the password submission.  Cookie fields are
`none` when the response carries no such cookie (a `KeyError` in the code). -/
structure LoginEnv where
  now : Int
  probe_status : Nat
  probe_xsrf_cookie : Option String
  prompted_password : String
  nonce_status : Nat
  salt : String
  nonce_json : String
  nonce_xsrf_cookie : Option String
  auth_status : Nat
  auth_session_cookie : Option String
deriving DecidableEq, Repr

/-- Lines 838–845: store the token, slide the expiry, record the login time,
and persist. -/
def login_finish (data : ConfigData) (token : String) (env : LoginEnv)
    (writes : List ConfigData) (requests : List String) (logs : List String) :
    LoginResult :=
  let d := { data with token := some (some token),
                       token_expires := some (some (env.now + 600)),
                       last_login := some (some env.now) }
  { outcome := .ok, data := d, writes := writes ++ [d],
    requests := requests, logs := logs ++ ["Login successful"] }

/-- Lines 786–836: the probe and the two handshake paths. -/
def login_after_resolve (data : ConfigData) (password : Option String)
    (env : LoginEnv) : LoginResult :=
  -- line 788: r = requests.get(baseurl, allow_redirects=False)
  let reqs0 := ["GET /"]
  -- line 789: check_response(data, r.status_code)
  let cr := check_response data env.probe_status env.now
  match cr.outcome with
  | some code =>
    { outcome := .exited code, data := cr.data, writes := cr.writes,
      requests := reqs0, logs := cr.logs }
  | none =>
    let data := cr.data
    let writes0 := cr.writes
    if env.probe_status = 200 then
      -- line 792: token = unquote(r.cookies["xsrf-token"])
      match env.probe_xsrf_cookie with
      | none =>
        { outcome := .keyError, data := data, writes := writes0,
          requests := reqs0, logs := [] }
      | some tok => login_finish data (unquote tok) env writes0 reqs0 []
    else if env.probe_status = 302 then
      -- lines 794–797: prompt for the password when none was given
      let logs0 := if password.isNone then ["Authentication required"] else []
      let password := password.getD env.prompted_password
      -- lines 800–802: nonce request
      let reqs1 := reqs0 ++ ["POST /login.cgi get-nonce"]
      if env.nonce_status ≠ 200 then
        -- lines 803–805: log and `return` (a normal return, not an exit)
        { outcome := .ok, data := data, writes := writes0, requests := reqs1,
          logs := logs0 ++ ["Error getting salt from server"] }
      else
        -- lines 807–809
        let salt := env.salt
        let data := { data with nonce := some (unquote env.nonce_json) }
        match env.nonce_xsrf_cookie with
        | none =>
          { outcome := .keyError, data := data, writes := writes0,
            requests := reqs1, logs := logs0 }
        | some tok0 =>
          let token := unquote tok0
          -- lines 812–824: hash and submit the password
          let digest := login_hash (strBytes password) salt (data.nonce.getD "")
          let reqs2 := reqs1 ++ ["POST /login.cgi password=" ++ digest]
          -- line 825: check_response(data, r.status_code)
          let cr2 := check_response data env.auth_status env.now
          match cr2.outcome with
          | some code =>
            { outcome := .exited code, data := cr2.data,
              writes := writes0 ++ cr2.writes, requests := reqs2,
              logs := logs0 ++ cr2.logs }
          | none =>
            let data := cr2.data
            let writes1 := writes0 ++ cr2.writes
            if env.auth_status = 200 then
              -- line 828: data["session-auth"] = unquote(r.cookies["session-auth"])
              match env.auth_session_cookie with
              | none =>
                { outcome := .keyError, data := data, writes := writes1,
                  requests := reqs2, logs := logs0 ++ ["Connected"] }
              | some sa =>
                let data := { data with session_auth := some (unquote sa) }
                login_finish data token env writes1 reqs2
                  (logs0 ++ ["Connected"])
            else
              -- lines 829–832
              { outcome := .exited 2, data := data, writes := writes1,
                requests := reqs2,
                logs := logs0 ++ ["Error authenticating against the server"] }
    else
      -- lines 833–836: log and `return` (a normal return, not an exit)
      { outcome := .ok, data := data, writes := writes0, requests := reqs0,
        logs := ["Error connecting to server"] }

/-- `login(data, input_url, password)`. -/
def login (data : ConfigData) (input_url password : Option String)
    (env : LoginEnv) : LoginResult :=
  match login_resolve_url data input_url with
  | .error .invalidURL =>
    { outcome := .exited 2, data := data, writes := [], requests := [],
      logs := ["Invalid URL"] }
  | .error .nameError =>
    { outcome := .nameError, data := data, writes := [], requests := [],
      logs := [] }
  | .error .keyError =>
    { outcome := .keyError, data := data, writes := [], requests := [],
      logs := [] }
  | .ok d1 => login_after_resolve d1 password env

/-- When `main` dispatches the `login` command, a normal return from `login`
lets `main` run to completion, so the process exits with status 0; a
`sys.exit(code)` exits with `code`; an uncaught exception makes the
interpreter exit with status 1. -/
def main_login_exit_code (r : LoginResult) : Nat :=
  match r.outcome with
  | .ok => 0
  | .exited c => c
  | .nameError => 1
  | .keyError => 1

/-- A fully-populated session record (token, nonce, session-auth cookie and
both timestamps all set). -/
def sampleSession : ConfigData :=
  { server := some { protocol := some "https", url := some "myserver",
                     port := some "8200" }
    token := some (some "tok")
    token_expires := some (some 1234)
    last_login := some (some 1200)
    nonce := some "n0"
    session_auth := some "sa"
    parameters_file := some none
    verbose := some true }

/-! ### Sanity checks: the executable embedding on concrete inputs -/

/-- Sanity: SHA-256 of the empty message matches the published test vector. -/
example :
    sha256 [] =
      [227, 176, 196, 66, 152, 252, 28, 20,
       154, 251, 244, 200, 153, 111, 185, 36,
       39, 174, 65, 228, 100, 155, 147, 76,
       164, 149, 153, 27, 120, 82, 184, 85] := by decide

/-- Sanity: SHA-256 of `"abc"` matches the published test vector. -/
example :
    sha256 [97, 98, 99] =
      [186, 120, 22, 191, 143, 1, 207, 234,
       65, 65, 64, 222, 93, 174, 34, 35,
       176, 3, 97, 163, 150, 23, 122, 156,
       180, 16, 255, 97, 242, 0, 21, 173] := by decide

/-- Sanity: base64 of `"abc"` (bytes 97 98 98) round-trips as published. -/
example : b64encode [97, 98, 99] = "YWJj" := by decide

example : b64decode "YWJj" = [97, 98, 99] := by decide

example : b64decode "YQ==" = [97] := by decide

example : splitOnChar ':' "https:myserver:8200".toList =
  ["https".toList, "myserver".toList, "8200".toList] := by decide

example : unquote "a%2Bb" = "a+b" := by decide

example : unquote "plain" = "plain" := by decide

example : strBytes "abc" = [97, 98, 99] := by decide

/-! ## Theorems about the claims -/

/-- C1 (counterexample): at the boundary `expiresAt = now` (both normalized
with the same timezone offset), `verify_token` succeeds (no exit), whereas
the claim requires failure whenever `expiresAt` is not strictly after `now`. -/
theorem C1_counterexample :
    (verify_token
      { server := some { protocol := some "http", url := some "localhost",
                         port := some "8200" }
        token := some (some "abc")
        token_expires := some (some 100)
        last_login := some none
        nonce := none
        session_auth := none
        parameters_file := some none
        verbose := some false } 100 0).outcome = none ∧
    ¬ ((100 : Int) < 100) := by
  exact ⟨rfl, by omega⟩

/-- C1 (amended): `verify_token` exits (with the non-zero code 2) exactly when
the token or the expiry is absent, or the expiry is strictly before `now`; it
succeeds exactly when both are present and `now ≤ expiresAt` — so the
boundary `expiresAt = now` succeeds.  It performs no write and no network
request, and the timezone normalization (adding the same local-timezone
offset to both instants) never changes the result. -/
theorem C1_verify_token_characterization (data : ConfigData)
    (now off off' : Int) :
    ((verify_token data now off).outcome = some 2 ↔
      data.token.join = none ∨ data.token_expires.join = none ∨
        ∃ e, data.token_expires.join = some e ∧ e < now) ∧
    ((verify_token data now off).outcome = none ↔
      ∃ t e, data.token.join = some t ∧ data.token_expires.join = some e ∧
        now ≤ e) ∧
    (verify_token data now off).writes = [] ∧
    (verify_token data now off).requests = [] ∧
    verify_token data now off = verify_token data now off' := by
  obtain ⟨sv, tok, texp, ll, non, sa, pf, vb⟩ := data
  rcases tok with _ | (_ | t) <;> rcases texp with _ | (_ | e) <;>
    try simp [verify_token]
  by_cases h : e < now
  · have h1 : e + off < now + off := by omega
    have h2 : e + off' < now + off' := by omega
    simp [verify_token, h, h1, h2]
  · have h1 : ¬ e + off < now + off := by omega
    have h2 : ¬ e + off' < now + off' := by omega
    simp [verify_token, h, h1, h2]
    omega

/-- C2: the digest computed step by step on the challenge path equals the
spec formula
`base64encode(SHA256(base64decode(nonce) || SHA256(passwordBytes || base64decode(salt))))`,
as a function of exactly the password bytes and the base64 salt and nonce
strings; and on the challenge path (probe 302, nonce request 200) the
password submission transmits exactly this digest. -/
theorem C2_login_hash_matches_spec (password : List Nat) (salt nonce : String) :
    login_hash password salt nonce = spec_digest password salt nonce ∧
    (∀ (data : ConfigData) (pw : String) (env : LoginEnv) (t : String),
      env.probe_status = 302 → env.nonce_status = 200 →
      env.nonce_xsrf_cookie = some t →
      (login_after_resolve data (some pw) env).requests =
        ["GET /", "POST /login.cgi get-nonce",
         "POST /login.cgi password=" ++
           spec_digest (strBytes pw) env.salt (unquote env.nonce_json)]) := by
  refine ⟨rfl, ?_⟩
  intro data pw env t hp hn hc
  by_cases h400 : env.auth_status = 400
  · simp [login_after_resolve, check_response, hp, hn, hc, h400,
          login_hash, spec_digest]
  · by_cases h503 : env.auth_status = 503
    · simp [login_after_resolve, check_response, hp, hn, hc, h400, h503,
            login_hash, spec_digest]
    · by_cases h200 : env.auth_status = 200
      · cases hsa : env.auth_session_cookie <;>
          simp [login_after_resolve, login_finish, check_response, hp, hn, hc,
                h400, h503, h200, hsa, login_hash, spec_digest]
      · simp [login_after_resolve, check_response, hp, hn, hc, h400, h503,
              h200, login_hash, spec_digest]

/-- C2 (witness): the transmission conjunct instantiated at a concrete
environment. -/
theorem C2_login_hash_witness :
    (login_after_resolve defaultData (some "pw")
        { now := 0, probe_status := 302, probe_xsrf_cookie := none,
          prompted_password := "", nonce_status := 200, salt := "c2FsdA==",
          nonce_json := "bm9uY2U=", nonce_xsrf_cookie := some "tk",
          auth_status := 401, auth_session_cookie := none }).requests =
      ["GET /", "POST /login.cgi get-nonce",
       "POST /login.cgi password=" ++
         spec_digest (strBytes "pw") "c2FsdA==" (unquote "bm9uY2U=")] :=
  (C2_login_hash_matches_spec [] "" "").2 defaultData "pw"
    { now := 0, probe_status := 302, probe_xsrf_cookie := none,
      prompted_password := "", nonce_status := 200, salt := "c2FsdA==",
      nonce_json := "bm9uY2U=", nonce_xsrf_cookie := some "tk",
      auth_status := 401, auth_session_cookie := none } "tk" rfl rfl rfl

/-- C4: on HTTP 200, `check_response` sets `token_expires` to `now + 600`
whatever it was before, and immediately writes exactly the updated
configuration to disk, without exiting. -/
theorem C4_check_response_200_slides_expiry (data : ConfigData) (now : Int) :
    check_response data 200 now =
      { outcome := none
        data := { data with token_expires := some (some (now + 600)) }
        writes := [{ data with token_expires := some (some (now + 600)) }]
        logs := [] } := rfl

/-- C5: on HTTP 400, `check_response` exits with the non-zero code 2 and the
session-expired message, leaving the configuration untouched and writing
nothing; on any status other than 200, 400 and 503 it does nothing at all. -/
theorem C5_check_response_400_and_default (data : ConfigData) (now : Int)
    (status : Nat) (h200 : status ≠ 200) (h400 : status ≠ 400)
    (h503 : status ≠ 503) :
    check_response data 400 now =
      { outcome := some 2, data := data, writes := [],
        logs := ["Session expired. Please login again"] } ∧
    check_response data status now =
      { outcome := none, data := data, writes := [], logs := [] } := by
  refine ⟨rfl, ?_⟩
  simp [check_response, h200, h400, h503]

/-- C5 (witness): instantiated at status 418. -/
theorem C5_check_response_witness :
    check_response defaultData 400 7 =
      { outcome := some 2, data := defaultData, writes := [],
        logs := ["Session expired. Please login again"] } ∧
    check_response defaultData 418 7 =
      { outcome := none, data := defaultData, writes := [], logs := [] } :=
  C5_check_response_400_and_default defaultData 7 418 (by decide) (by decide)
    (by decide)

/-- C9: writing any validating configuration record with `write_config` and
reading it back with `load_config` (no overwrite) returns a record equal to
the one written, in all fields. -/
theorem C9_write_then_load_roundtrip (rec dflt : ConfigData)
    (fs : Option ConfigData) (h : validate_config rec = true) :
    load_config dflt false (write_config rec fs) = (some rec, .ok rec) := by
  simp [load_config, write_config, h]

/-- C9 (witness): the round-trip at a fully-populated session record. -/
theorem C9_roundtrip_witness :
    load_config defaultData false (write_config sampleSession none) =
      (some sampleSession, .ok sampleSession) :=
  C9_write_then_load_roundtrip sampleSession defaultData none (by decide)

/-- C10: calling `login` without a URL override reaches the port-stripping
line with `protocol`, `url` and `port` unassigned and raises an unhandled
name error: no request is issued, nothing is written, the in-memory
configuration is untouched (so the fallback to the persisted server
configuration is never exercised), and the interpreter exits with the
non-zero status 1. -/
theorem C10_login_without_url_raises (data : ConfigData)
    (password : Option String) (env : LoginEnv) :
    login data none password env =
      { outcome := .nameError, data := data, writes := [], requests := [],
        logs := [] } ∧
    main_login_exit_code (login data none password env) = 1 :=
  ⟨rfl, rfl⟩

/-! Helper lemmas about `splitOnChar` and character filtering, used for the
URL-resolution claim. -/

theorem splitOnChar_ne_nil (sep : Char) (l : List Char) :
    splitOnChar sep l ≠ [] := by
  induction l with
  | nil => simp [splitOnChar]
  | cons c cs ih =>
    by_cases h : c = sep
    · simp [splitOnChar, h]
    · simp only [splitOnChar, h, if_false]
      cases hs : splitOnChar sep cs <;> simp

theorem splitOnChar_no_sep (sep : Char) (l : List Char) (h : sep ∉ l) :
    splitOnChar sep l = [l] := by
  induction l with
  | nil => rfl
  | cons c cs ih =>
    have hc : ¬ c = sep := by
      rintro rfl; exact h (List.mem_cons_self _ _)
    have hcs : sep ∉ cs := fun hm => h (List.mem_cons_of_mem _ hm)
    simp [splitOnChar, hc, ih hcs]

theorem splitOnChar_append (sep : Char) (a r : List Char) (h : sep ∉ a) :
    splitOnChar sep (a ++ sep :: r) = a :: splitOnChar sep r := by
  induction a with
  | nil => simp [splitOnChar]
  | cons c cs ih =>
    have hc : ¬ c = sep := by
      rintro rfl; exact h (List.mem_cons_self _ _)
    have hcs : sep ∉ cs := fun hm => h (List.mem_cons_of_mem _ hm)
    simp [splitOnChar, hc, ih hcs]

theorem not_mem_append_cons {x sep : Char} {a r : List Char} (h1 : x ∉ a)
    (h2 : x ≠ sep) (h3 : x ∉ r) : x ∉ a ++ sep :: r := by
  intro h
  rcases List.mem_append.mp h with h | h
  · exact h1 h
  · rcases List.mem_cons.mp h with h | h
    · exact h2 h
    · exact h3 h

/-- The `replace("/", "").replace("_", "")` step is the identity on strings
containing neither character. -/
theorem filter_strip_of_not_mem (l : List Char) (h1 : '/' ∉ l)
    (h2 : '_' ∉ l) : l.filter (fun c => !(c = '/' || c = '_')) = l := by
  induction l with
  | nil => rfl
  | cons c cs ih =>
    have hc1 : ¬ c = '/' := by
      rintro rfl; exact h1 (List.mem_cons_self _ _)
    have hc2 : ¬ c = '_' := by
      rintro rfl; exact h2 (List.mem_cons_self _ _)
    have ih' := ih (fun hm => h1 (List.mem_cons_of_mem _ hm))
      (fun hm => h2 (List.mem_cons_of_mem _ hm))
    simp [List.filter_cons, hc1, hc2, ih']
    exact fun x hx => ⟨fun hq => h1 (hq ▸ List.mem_cons_of_mem c hx),
      fun hq => h2 (hq ▸ List.mem_cons_of_mem c hx)⟩

theorem toList_mk (l : List Char) : (String.mk l).toList = l := rfl

/-- The strip/fallback/update block on assigned locals, for a configuration
whose server record is present: the port keeps only its digits, the protocol
is kept only when it case-insensitively reads `http` or `https`, and each
field left empty falls back to the persisted configuration. -/
theorem login_apply_locals_some (d : ConfigData) (P U PT : String)
    (hs : d.server = some { protocol := some P, url := some U,
                            port := some PT })
    (a b c : List Char) :
    login_apply_locals d (some a) (some b) (some c) =
      .ok { d with
              server := some
                { protocol := some (if a.map Char.toLower = "http".toList ∨
                      a.map Char.toLower = "https".toList
                    then String.mk a else P)
                  url := some (if b = [] then U else String.mk b)
                  port := some (if c.filter Char.isDigit = [] then PT
                      else String.mk (c.filter Char.isDigit)) } } := by
  by_cases h1 : a.map Char.toLower = "http".toList ∨
      a.map Char.toLower = "https".toList <;>
    by_cases h2 : b = [] <;>
      by_cases h3 : c.filter Char.isDigit = [] <;>
        simp only [login_apply_locals, hs, h1, h2, h3, Option.some_bind,
                   ite_true, ite_false]

/-- C3: URL-override resolution.  On strings unaffected by the `/`/`_` strip:
two colons give protocol:host:port; one colon whose position is below 6 gives
protocol:host with the port defaulted; one colon otherwise gives host:port;
zero colons give host only; three or more colons exit with `Invalid URL`
(code 2).  Non-digits are stripped from the port segment; a protocol that is
not (case-insensitively) `http`/`https`, an empty host, or an empty stripped
port fall back to the persisted server configuration.  The four spec
examples follow. -/
theorem C3_login_url_resolution (P U PT : String) (d : ConfigData)
    (hs : d.server = some { protocol := some P, url := some U,
                            port := some PT }) :
    (∀ a b c : List Char,
      ':' ∉ a ∧ '/' ∉ a ∧ '_' ∉ a →
      ':' ∉ b ∧ '/' ∉ b ∧ '_' ∉ b →
      ':' ∉ c ∧ '/' ∉ c ∧ '_' ∉ c →
      login_resolve_url d (some (String.mk (a ++ ':' :: (b ++ ':' :: c)))) =
        .ok { d with
                server := some
                  { protocol := some (if a.map Char.toLower = "http".toList ∨
                        a.map Char.toLower = "https".toList
                      then String.mk a else P)
                    url := some (if b = [] then U else String.mk b)
                    port := some (if c.filter Char.isDigit = [] then PT
                        else String.mk (c.filter Char.isDigit)) } }) ∧
    (∀ a b : List Char,
      ':' ∉ a ∧ '/' ∉ a ∧ '_' ∉ a →
      ':' ∉ b ∧ '/' ∉ b ∧ '_' ∉ b →
      login_resolve_url d (some (String.mk (a ++ ':' :: b))) =
        if a.length < 6 then
          .ok { d with
                  server := some
                    { protocol := some
                        (if a.map Char.toLower = "http".toList ∨
                            a.map Char.toLower = "https".toList
                          then String.mk a else P)
                      url := some (if b = [] then U else String.mk b)
                      port := some PT } }
        else
          .ok { d with
                  server := some
                    { protocol := some P
                      url := some (String.mk a)
                      port := some (if b.filter Char.isDigit = [] then PT
                          else String.mk (b.filter Char.isDigit)) } }) ∧
    (∀ u : List Char,
      ':' ∉ u ∧ '/' ∉ u ∧ '_' ∉ u →
      login_resolve_url d (some (String.mk u)) =
        .ok { d with
                server := some
                  { protocol := some P
                    url := some (if u = [] then U else String.mk u)
                    port := some PT } }) ∧
    (∀ a b c s : List Char,
      ':' ∉ a ∧ '/' ∉ a ∧ '_' ∉ a →
      ':' ∉ b ∧ '/' ∉ b ∧ '_' ∉ b →
      ':' ∉ c ∧ '/' ∉ c ∧ '_' ∉ c →
      '/' ∉ s ∧ '_' ∉ s →
      login_resolve_url d
          (some (String.mk (a ++ ':' :: (b ++ ':' :: (c ++ ':' :: s))))) =
        .error .invalidURL) ∧
    login_resolve_url d (some "https:myserver:8200") =
      .ok { d with
              server := some { protocol := some "https",
                               url := some "myserver",
                               port := some "8200" } } ∧
    login_resolve_url d (some "myserver:8200") =
      .ok { d with
              server := some { protocol := some P, url := some "myserver",
                               port := some "8200" } } ∧
    login_resolve_url d (some "myserver") =
      .ok { d with
              server := some { protocol := some P, url := some "myserver",
                               port := some PT } } ∧
    login_resolve_url d (some "a:b:c:d") = .error .invalidURL := by
  have key := login_apply_locals_some d P U PT hs
  have g2 : ∀ a b c : List Char,
      ':' ∉ a ∧ '/' ∉ a ∧ '_' ∉ a →
      ':' ∉ b ∧ '/' ∉ b ∧ '_' ∉ b →
      ':' ∉ c ∧ '/' ∉ c ∧ '_' ∉ c →
      login_resolve_url d (some (String.mk (a ++ ':' :: (b ++ ':' :: c)))) =
        .ok { d with
                server := some
                  { protocol := some (if a.map Char.toLower = "http".toList ∨
                        a.map Char.toLower = "https".toList
                      then String.mk a else P)
                    url := some (if b = [] then U else String.mk b)
                    port := some (if c.filter Char.isDigit = [] then PT
                        else String.mk (c.filter Char.isDigit)) } } := by
    intro a b c ha hb hc
    have hstrip : (a ++ ':' :: (b ++ ':' :: c)).filter
        (fun ch => !(ch = '/' || ch = '_')) = a ++ ':' :: (b ++ ':' :: c) :=
      filter_strip_of_not_mem _
        (not_mem_append_cons ha.2.1 (by decide)
          (not_mem_append_cons hb.2.1 (by decide) hc.2.1))
        (not_mem_append_cons ha.2.2 (by decide)
          (not_mem_append_cons hb.2.2 (by decide) hc.2.2))
    have hsplit : splitOnChar ':' (a ++ ':' :: (b ++ ':' :: c)) = [a, b, c] := by
      rw [splitOnChar_append ':' a _ ha.1, splitOnChar_append ':' b _ hb.1,
          splitOnChar_no_sep ':' c hc.1]
    simp only [login_resolve_url, toList_mk, hstrip, hsplit]
    exact key a b c
  have g1 : ∀ a b : List Char,
      ':' ∉ a ∧ '/' ∉ a ∧ '_' ∉ a →
      ':' ∉ b ∧ '/' ∉ b ∧ '_' ∉ b →
      login_resolve_url d (some (String.mk (a ++ ':' :: b))) =
        if a.length < 6 then
          .ok { d with
                  server := some
                    { protocol := some
                        (if a.map Char.toLower = "http".toList ∨
                            a.map Char.toLower = "https".toList
                          then String.mk a else P)
                      url := some (if b = [] then U else String.mk b)
                      port := some PT } }
        else
          .ok { d with
                  server := some
                    { protocol := some P
                      url := some (String.mk a)
                      port := some (if b.filter Char.isDigit = [] then PT
                          else String.mk (b.filter Char.isDigit)) } } := by
    intro a b ha hb
    have hstrip : (a ++ ':' :: b).filter
        (fun ch => !(ch = '/' || ch = '_')) = a ++ ':' :: b :=
      filter_strip_of_not_mem _
        (not_mem_append_cons ha.2.1 (by decide) hb.2.1)
        (not_mem_append_cons ha.2.2 (by decide) hb.2.2)
    have hsplit : splitOnChar ':' (a ++ ':' :: b) = [a, b] := by
      rw [splitOnChar_append ':' a _ ha.1, splitOnChar_no_sep ':' b hb.1]
    simp only [login_resolve_url, toList_mk, hstrip, hsplit]
    by_cases hlen : a.length < 6
    · rw [if_pos hlen, if_pos hlen, key a b []]
      simp
    · rw [if_neg hlen, if_neg hlen, key [] a b]
      have ha' : ¬ a = [] := by
        rintro rfl; exact hlen (by simp)
      simp [ha']
  have g0 : ∀ u : List Char,
      ':' ∉ u ∧ '/' ∉ u ∧ '_' ∉ u →
      login_resolve_url d (some (String.mk u)) =
        .ok { d with
                server := some
                  { protocol := some P
                    url := some (if u = [] then U else String.mk u)
                    port := some PT } } := by
    intro u hu
    have hstrip : u.filter (fun ch => !(ch = '/' || ch = '_')) = u :=
      filter_strip_of_not_mem u hu.2.1 hu.2.2
    have hsplit : splitOnChar ':' u = [u] := splitOnChar_no_sep ':' u hu.1
    simp only [login_resolve_url, toList_mk, hstrip, hsplit]
    rw [key [] u []]
    simp
  have g3 : ∀ a b c s : List Char,
      ':' ∉ a ∧ '/' ∉ a ∧ '_' ∉ a →
      ':' ∉ b ∧ '/' ∉ b ∧ '_' ∉ b →
      ':' ∉ c ∧ '/' ∉ c ∧ '_' ∉ c →
      '/' ∉ s ∧ '_' ∉ s →
      login_resolve_url d
          (some (String.mk (a ++ ':' :: (b ++ ':' :: (c ++ ':' :: s))))) =
        .error .invalidURL := by
    intro a b c s ha hb hc hsf
    have hstrip : (a ++ ':' :: (b ++ ':' :: (c ++ ':' :: s))).filter
        (fun ch => !(ch = '/' || ch = '_')) =
          a ++ ':' :: (b ++ ':' :: (c ++ ':' :: s)) :=
      filter_strip_of_not_mem _
        (not_mem_append_cons ha.2.1 (by decide)
          (not_mem_append_cons hb.2.1 (by decide)
            (not_mem_append_cons hc.2.1 (by decide) hsf.1)))
        (not_mem_append_cons ha.2.2 (by decide)
          (not_mem_append_cons hb.2.2 (by decide)
            (not_mem_append_cons hc.2.2 (by decide) hsf.2)))
    have hsplit : splitOnChar ':' (a ++ ':' :: (b ++ ':' :: (c ++ ':' :: s))) =
        a :: b :: c :: splitOnChar ':' s := by
      rw [splitOnChar_append ':' a _ ha.1, splitOnChar_append ':' b _ hb.1,
          splitOnChar_append ':' c _ hc.1]
    rcases hq : splitOnChar ':' s with _ | ⟨q, qs⟩
    · exact absurd hq (splitOnChar_ne_nil ':' s)
    · rw [hq] at hsplit
      simp only [login_resolve_url, toList_mk, hstrip, hsplit]
  refine ⟨g2, g1, g0, g3, ?_, ?_, ?_, ?_⟩
  · exact g2 "https".toList "myserver".toList "8200".toList
      (by decide) (by decide) (by decide)
  · exact g1 "myserver".toList "8200".toList (by decide) (by decide)
  · exact g0 "myserver".toList (by decide)
  · exact g3 "a".toList "b".toList "c".toList "d".toList
      (by decide) (by decide) (by decide) (by decide)

/-- C3 (witness): the resolution rules at the default configuration. -/
theorem C3_url_resolution_witness :
    login_resolve_url defaultData (some "https:myserver:8200") =
      .ok { defaultData with
              server := some { protocol := some "https",
                               url := some "myserver",
                               port := some "8200" } } ∧
    login_resolve_url defaultData (some "a:b:c:d") =
      .error .invalidURL :=
  ⟨(C3_login_url_resolution "http" "localhost" "8200" defaultData
      rfl).2.2.2.2.1,
   (C3_login_url_resolution "http" "localhost" "8200" defaultData
      rfl).2.2.2.2.2.2.2⟩

/-- C6 (counterexample): on a probe status of 404 (other than 200 and 302),
`login` logs a connection error and returns normally, so the process exits
with status 0, not the non-zero status the claim requires. -/
theorem C6_counterexample :
    main_login_exit_code
      (login defaultData (some "myserver:8200") none
        { now := 0, probe_status := 404, probe_xsrf_cookie := none,
          prompted_password := "", nonce_status := 0, salt := "",
          nonce_json := "", nonce_xsrf_cookie := none, auth_status := 0,
          auth_session_cookie := none }) = 0 ∧
    (login defaultData (some "myserver:8200") none
        { now := 0, probe_status := 404, probe_xsrf_cookie := none,
          prompted_password := "", nonce_status := 0, salt := "",
          nonce_json := "", nonce_xsrf_cookie := none, auth_status := 0,
          auth_session_cookie := none }).writes = [] := by decide

/-- C6 (amended): a probe status of 400 or 503 makes the shared
`check_response` helper exit with code 2 (with its session-expired or
server-unavailable message, not a connection-error report); any other probe
status outside {200, 302} logs "Error connecting to server" and returns
normally, so the process completes with exit status 0.  In every such case
nothing is written to disk and the in-memory configuration is unchanged. -/
theorem C6_login_probe_failure (data : ConfigData) (password : Option String)
    (env : LoginEnv) (h200 : env.probe_status ≠ 200)
    (h302 : env.probe_status ≠ 302) :
    (env.probe_status = 400 →
      login_after_resolve data password env =
        { outcome := .exited 2, data := data, writes := [],
          requests := ["GET /"],
          logs := ["Session expired. Please login again"] }) ∧
    (env.probe_status = 503 →
      login_after_resolve data password env =
        { outcome := .exited 2, data := data, writes := [],
          requests := ["GET /"],
          logs := ["Server is not responding. Is it running?"] }) ∧
    (env.probe_status ≠ 400 → env.probe_status ≠ 503 →
      login_after_resolve data password env =
        { outcome := .ok, data := data, writes := [], requests := ["GET /"],
          logs := ["Error connecting to server"] } ∧
      main_login_exit_code (login_after_resolve data password env) = 0) := by
  refine ⟨?_, ?_, ?_⟩
  · intro h
    simp [login_after_resolve, check_response, h]
  · intro h
    simp [login_after_resolve, check_response, h]
  · intro h400 h503
    simp [login_after_resolve, check_response, main_login_exit_code,
          h200, h302, h400, h503]

/-- C6 (witness): the general probe-failure case instantiated at status 505. -/
theorem C6_probe_failure_witness :
    login_after_resolve defaultData none
        { now := 3, probe_status := 505, probe_xsrf_cookie := none,
          prompted_password := "", nonce_status := 0, salt := "",
          nonce_json := "", nonce_xsrf_cookie := none, auth_status := 0,
          auth_session_cookie := none } =
      { outcome := .ok, data := defaultData, writes := [],
        requests := ["GET /"], logs := ["Error connecting to server"] } ∧
    main_login_exit_code
      (login_after_resolve defaultData none
        { now := 3, probe_status := 505, probe_xsrf_cookie := none,
          prompted_password := "", nonce_status := 0, salt := "",
          nonce_json := "", nonce_xsrf_cookie := none, auth_status := 0,
          auth_session_cookie := none }) = 0 :=
  (C6_login_probe_failure defaultData none
    { now := 3, probe_status := 505, probe_xsrf_cookie := none,
      prompted_password := "", nonce_status := 0, salt := "",
      nonce_json := "", nonce_xsrf_cookie := none, auth_status := 0,
      auth_session_cookie := none } (by decide) (by decide)).2.2
    (by decide) (by decide)

/-- C7 (counterexample): a failing nonce request (status 500) on the
challenge path makes `login` log an error and return normally — the process
exits with status 0, not the non-zero status the claim requires (no session
is persisted, as the claim says). -/
theorem C7_counterexample :
    main_login_exit_code
      (login defaultData (some "https:myserver:8200") (some "pw")
        { now := 0, probe_status := 302, probe_xsrf_cookie := none,
          prompted_password := "", nonce_status := 500, salt := "",
          nonce_json := "", nonce_xsrf_cookie := none, auth_status := 0,
          auth_session_cookie := none }) = 0 ∧
    (login defaultData (some "https:myserver:8200") (some "pw")
        { now := 0, probe_status := 302, probe_xsrf_cookie := none,
          prompted_password := "", nonce_status := 500, salt := "",
          nonce_json := "", nonce_xsrf_cookie := none, auth_status := 0,
          auth_session_cookie := none }).writes = [] := by decide

/-- C7 (amended): on the challenge path, a failing nonce request logs
"Error getting salt from server" and returns normally (process exit status
0) with nothing persisted; a failing password submission exits with the
non-zero code 2 (via `check_response` for 400/503, otherwise with the
authentication-error report), also with nothing persisted. -/
theorem C7_login_challenge_failures (data : ConfigData) (pw : String)
    (env : LoginEnv) (hp : env.probe_status = 302) :
    (env.nonce_status ≠ 200 →
      login_after_resolve data (some pw) env =
        { outcome := .ok, data := data, writes := [],
          requests := ["GET /", "POST /login.cgi get-nonce"],
          logs := ["Error getting salt from server"] } ∧
      main_login_exit_code (login_after_resolve data (some pw) env) = 0) ∧
    (∀ t : String, env.nonce_status = 200 → env.nonce_xsrf_cookie = some t →
      env.auth_status ≠ 200 →
      (login_after_resolve data (some pw) env).outcome = .exited 2 ∧
      (login_after_resolve data (some pw) env).writes = []) := by
  constructor
  · intro hn
    simp [login_after_resolve, check_response, main_login_exit_code, hp, hn]
  · intro t hn hc hna
    by_cases h400 : env.auth_status = 400
    · simp [login_after_resolve, check_response, hp, hn, hc, h400]
    · by_cases h503 : env.auth_status = 503
      · simp [login_after_resolve, check_response, hp, hn, hc, h400, h503]
      · simp [login_after_resolve, check_response, hp, hn, hc, h400, h503,
              hna]

/-- C7 (witness): a password submission rejected with status 403. -/
theorem C7_challenge_failure_witness :
    (login_after_resolve defaultData (some "pw")
        { now := 0, probe_status := 302, probe_xsrf_cookie := none,
          prompted_password := "", nonce_status := 200, salt := "c2FsdA==",
          nonce_json := "bm9uY2U=", nonce_xsrf_cookie := some "tk",
          auth_status := 403, auth_session_cookie := none }).outcome =
      .exited 2 ∧
    (login_after_resolve defaultData (some "pw")
        { now := 0, probe_status := 302, probe_xsrf_cookie := none,
          prompted_password := "", nonce_status := 200, salt := "c2FsdA==",
          nonce_json := "bm9uY2U=", nonce_xsrf_cookie := some "tk",
          auth_status := 403, auth_session_cookie := none }).writes = [] :=
  (C7_login_challenge_failures defaultData "pw"
    { now := 0, probe_status := 302, probe_xsrf_cookie := none,
      prompted_password := "", nonce_status := 200, salt := "c2FsdA==",
      nonce_json := "bm9uY2U=", nonce_xsrf_cookie := some "tk",
      auth_status := 403, auth_session_cookie := none } rfl).2
    "tk" rfl rfl (by decide)

/-- C8 (counterexample): with the override `"https:newhost:9999"` and a probe
that fails with status 500, the resolved server endpoint is present in the
in-memory configuration but nothing at all is written to disk — the claim's
"persisted immediately, before and independent of the handshake's outcome"
does not hold. -/
theorem C8_counterexample :
    (login defaultData (some "https:newhost:9999") none
        { now := 0, probe_status := 500, probe_xsrf_cookie := none,
          prompted_password := "", nonce_status := 0, salt := "",
          nonce_json := "", nonce_xsrf_cookie := none, auth_status := 0,
          auth_session_cookie := none }).writes = [] ∧
    (login defaultData (some "https:newhost:9999") none
        { now := 0, probe_status := 500, probe_xsrf_cookie := none,
          prompted_password := "", nonce_status := 0, salt := "",
          nonce_json := "", nonce_xsrf_cookie := none, auth_status := 0,
          auth_session_cookie := none }).data.server =
      some { protocol := some "https", url := some "newhost",
             port := some "9999" } := by decide

/-- C8 (amended): a successfully resolved URL override updates the in-memory
configuration immediately (login proceeds on the updated record), but the
resolved endpoint reaches disk only through the writes performed later in
the handshake: when the probe fails (status outside {200, 302}) nothing is
persisted even though the in-memory record keeps the resolved endpoint, and
on the no-password path (probe 200) both writes — the `check_response`
refresh and the final session write — already carry the resolved endpoint. -/
theorem C8_resolved_url_persistence (d d1 : ConfigData)
    (input pw : Option String) (env : LoginEnv)
    (hres : login_resolve_url d input = .ok d1) :
    login d input pw env = login_after_resolve d1 pw env ∧
    (env.probe_status ≠ 200 → env.probe_status ≠ 302 →
      (login d input pw env).writes = [] ∧
      (login d input pw env).data.server = d1.server) ∧
    (∀ t : String, env.probe_status = 200 → env.probe_xsrf_cookie = some t →
      ∃ w1 w2, (login d input pw env).writes = [w1, w2] ∧
        w1.server = d1.server ∧ w2.server = d1.server) := by
  refine ⟨by simp [login, hres], ?_, ?_⟩
  · intro h200 h302
    by_cases h400 : env.probe_status = 400
    · simp [login, hres, login_after_resolve, check_response, h400]
    · by_cases h503 : env.probe_status = 503
      · simp [login, hres, login_after_resolve, check_response, h400, h503]
      · simp [login, hres, login_after_resolve, check_response, h200, h302,
              h400, h503]
  · intro t hp hc
    simp [login, hres, login_after_resolve, login_finish, check_response,
          hp, hc]
    exact ⟨_, _, ⟨rfl, rfl⟩, rfl, rfl⟩

/-- C8 (witness): the no-password path at a concrete override; both writes
carry the resolved endpoint even though none happened before the probe. -/
theorem C8_persistence_witness :
    ∃ w1 w2,
      (login defaultData (some "https:h:1") none
          { now := 0, probe_status := 200, probe_xsrf_cookie := some "ck",
            prompted_password := "", nonce_status := 0, salt := "",
            nonce_json := "", nonce_xsrf_cookie := none, auth_status := 0,
            auth_session_cookie := none }).writes = [w1, w2] ∧
      w1.server = some { protocol := some "https", url := some "h",
                         port := some "1" } ∧
      w2.server = some { protocol := some "https", url := some "h",
                         port := some "1" } :=
  (C8_resolved_url_persistence defaultData
    { defaultData with
        server := some { protocol := some "https", url := some "h",
                         port := some "1" } }
    (some "https:h:1") none
    { now := 0, probe_status := 200, probe_xsrf_cookie := some "ck",
      prompted_password := "", nonce_status := 0, salt := "",
      nonce_json := "", nonce_xsrf_cookie := none, auth_status := 0,
      auth_session_cookie := none } rfl).2.2 "ck" rfl rfl

end DuplicatiClient
